import Mathlib

/-!
Verification of the finsightAI deterministic insight engine, the QuickBooks
statement parser, and the AI explanation gateway.

Numeric model: the TypeScript code computes over IEEE doubles; amounts and
percentages are embedded as rationals (`ℚ`), which models the intended exact
decimal arithmetic. `Math.round` in JavaScript is `⌊x + 1/2⌋` (half toward
+∞), embedded as `jsRound`. Locale-specific digit formatting
(`toLocaleString` comma grouping, decimal printing of doubles, `Date`
rendering) is abstracted by the canonical rendering of the embedded values;
no claim below depends on digit formatting of the produced strings.
-/

namespace FinsightAI

-- ════════════════════════════════════════════════════════
-- Data model (src/lib/types)
-- ════════════════════════════════════════════════════════

structure PeriodData where
  periodStart : String
  periodEnd : String
  label : String
deriving DecidableEq, Repr

structure ExpenseCategory where
  name : String
  amount : ℚ
deriving DecidableEq, Repr

structure ProfitAndLoss where
  period : PeriodData
  totalRevenue : ℚ
  totalCogs : ℚ
  grossProfit : ℚ
  totalExpenses : ℚ
  netIncome : ℚ
  expenseCategories : List ExpenseCategory
deriving DecidableEq, Repr

structure CashPosition where
  currentBalance : ℚ
  previousBalance : ℚ
  asOfDate : String
deriving DecidableEq, Repr

inductive Direction where
  | up | down | flat
deriving DecidableEq, Repr

inductive Significance where
  | high | medium | low
deriving DecidableEq, Repr

structure VarianceResult where
  metric : String
  currentValue : ℚ
  previousValue : ℚ
  absoluteChange : ℚ
  percentChange : ℚ
  direction : Direction
  significance : Significance
deriving DecidableEq, Repr

inductive RatioTrend where
  | improving | declining | stable
deriving DecidableEq, Repr

structure RatioResult where
  name : String
  value : ℚ
  previousValue : Option ℚ
  trend : RatioTrend
  description : String
deriving DecidableEq, Repr

inductive TrendDirection where
  | increasing | decreasing | stable | volatile
deriving DecidableEq, Repr

structure TrendResult where
  metric : String
  direction : TrendDirection
  periods : ℕ
  magnitude : ℚ
  description : String
deriving DecidableEq, Repr

inductive AnomalySeverity where
  | high | medium | low
deriving DecidableEq, Repr

structure ExpectedRange where
  min : ℤ
  max : ℤ
deriving DecidableEq, Repr

structure AnomalyResult where
  metric : String
  value : ℚ
  expectedRange : ExpectedRange
  severity : AnomalySeverity
  description : String
deriving DecidableEq, Repr

inductive IssueSeverity where
  | critical | warning | info
deriving DecidableEq, Repr

structure Issue where
  id : String
  severity : IssueSeverity
  title : String
  description : String
  metric : String
  currentValue : ℚ
  threshold : Option ℚ
  firstDetectedAt : String
  periodsActive : ℕ
deriving DecidableEq, Repr

-- ════════════════════════════════════════════════════════
-- Numeric and JS-semantics helpers
-- ════════════════════════════════════════════════════════

/-- JavaScript `Math.round`: round half toward positive infinity. -/
def jsRound (q : ℚ) : ℤ := ⌊q + 1 / 2⌋

/-- `Math.round(q * 10) / 10`: round to one decimal place. -/
def round1 (q : ℚ) : ℚ := (jsRound (q * 10) : ℚ) / 10

/-- JS truthiness of a possibly-undefined number: `undefined` and `0` are
falsy; every other number is truthy. -/
def qTruthy (o : Option ℚ) : Option ℚ :=
  match o with
  | some x => if x = 0 then none else some x
  | none => none

/-- JS `a || d` for a possibly-undefined string `a`: `undefined` and the
empty string are falsy. -/
def strOr (o : Option String) (d : String) : String :=
  match o with
  | some s => if s = "" then d else s
  | none => d

/-- Rendering of an embedded numeric value inside a template string
(decimal printing of JS doubles is abstracted, see the file header). -/
def fmt (q : ℚ) : String := toString q

/-- Rendering of `${Math.round(q).toLocaleString()}` (comma grouping
abstracted). -/
def fmtUSD (q : ℚ) : String := toString (jsRound q)

def dirStr : Direction → String
  | .up => "up"
  | .down => "down"
  | .flat => "flat"

def trendDirStr : TrendDirection → String
  | .increasing => "increasing"
  | .decreasing => "decreasing"
  | .stable => "stable"
  | .volatile => "volatile"

-- ════════════════════════════════════════════════════════
-- Metrics Engine (src/lib/engine/insights)
-- ════════════════════════════════════════════════════════

/-- One entry of `computeVariances`: significance thresholds 20/10,
computed on the unrounded percent change. -/
def mkHeadlineVariance (metric : String) (cur prev : ℚ) : VarianceResult :=
  let absoluteChange := cur - prev
  let percentChange := if prev ≠ 0 then absoluteChange / |prev| * 100 else 0
  let absPercent := |percentChange|
  { metric := metric
    currentValue := cur
    previousValue := prev
    absoluteChange := absoluteChange
    percentChange := round1 percentChange
    direction := if absoluteChange > 0 then .up else if absoluteChange < 0 then .down else .flat
    significance := if absPercent > 20 then .high else if absPercent > 10 then .medium else .low }

/-- `computeVariances(current, previous)`. -/
def computeVariances (current previous : ProfitAndLoss) : List VarianceResult :=
  let metrics : List (String × ℚ × ℚ) :=
    [("Revenue", current.totalRevenue, previous.totalRevenue),
     ("Gross Profit", current.grossProfit, previous.grossProfit),
     ("Total Expenses", current.totalExpenses, previous.totalExpenses),
     ("Net Income", current.netIncome, previous.netIncome),
     ("Cost of Goods Sold", current.totalCogs, previous.totalCogs)]
  (metrics.filter (fun m => m.2.2 != 0 || m.2.1 != 0)).map
    (fun m => mkHeadlineVariance m.1 m.2.1 m.2.2)

/-- `new Map(cats.map(c => [c.name, c.amount])).get(name) || 0`: the last
binding for a duplicated name wins; a missing name (and a stored 0) reads
as 0. -/
def lookupAmount (cats : List ExpenseCategory) (nm : String) : ℚ :=
  (((cats.filter (fun c => c.name == nm)).getLast?).map (·.amount)).getD 0

/-- One entry of `computeExpenseVariances`: significance thresholds 25/10. -/
def mkExpenseVariance (nm : String) (cur prev : ℚ) : VarianceResult :=
  let absoluteChange := cur - prev
  let percentChange := if prev ≠ 0 then absoluteChange / |prev| * 100 else 0
  let absPercent := |percentChange|
  { metric := nm
    currentValue := cur
    previousValue := prev
    absoluteChange := absoluteChange
    percentChange := round1 percentChange
    direction := if absoluteChange > 0 then .up else if absoluteChange < 0 then .down else .flat
    significance := if absPercent > 25 then .high else if absPercent > 10 then .medium else .low }

/-- `computeExpenseVariances(current, previous)`: union of category names
(JS `Set` iteration order: first occurrence), filter `|percentChange| ≥ 5`
on the rounded field, then sort descending by absolute dollar change (JS
`Array.prototype.sort` is stable, modeled by `mergeSort`). -/
def computeExpenseVariances (current previous : ProfitAndLoss) : List VarianceResult :=
  let allCategories :=
    (current.expenseCategories.map (·.name) ++ previous.expenseCategories.map (·.name)).eraseDups
  ((allCategories.map (fun nm =>
      mkExpenseVariance nm (lookupAmount current.expenseCategories nm)
        (lookupAmount previous.expenseCategories nm))).filter
    (fun v => decide (5 ≤ |v.percentChange|))).mergeSort
    (fun a b => decide (|b.absoluteChange| ≤ |a.absoluteChange|))

/-- `getTrend(current, previous)` helper for margin-style ratios. -/
def getTrend (current : ℚ) (previous : Option ℚ) : RatioTrend :=
  match previous with
  | none => .stable
  | some p =>
    if current - p > 1 then .improving
    else if current - p < -1 then .declining
    else .stable

/-- `computeRatios(current, previous, cashPosition)`. The
`prevX ? round(prevX) : undefined` pattern uses JS truthiness, so an
exactly-zero previous ratio is emitted as `undefined` (`qTruthy`). -/
def computeRatios (current : ProfitAndLoss) (previous : Option ProfitAndLoss)
    (cashPosition : Option CashPosition) : List RatioResult :=
  let grossMargin :=
    if current.totalRevenue > 0 then current.grossProfit / current.totalRevenue * 100 else 0
  let prevGrossMargin : Option ℚ :=
    match previous with
    | some p => if p.totalRevenue > 0 then some (p.grossProfit / p.totalRevenue * 100) else none
    | none => none
  let grossMarginRatio : RatioResult :=
    { name := "Gross Margin"
      value := round1 grossMargin
      previousValue := (qTruthy prevGrossMargin).map round1
      trend := getTrend grossMargin prevGrossMargin
      description := "How much you keep from each sale after direct costs" }
  let netMargin :=
    if current.totalRevenue > 0 then current.netIncome / current.totalRevenue * 100 else 0
  let prevNetMargin : Option ℚ :=
    match previous with
    | some p => if p.totalRevenue > 0 then some (p.netIncome / p.totalRevenue * 100) else none
    | none => none
  let profitMarginRatio : RatioResult :=
    { name := "Profit Margin"
      value := round1 netMargin
      previousValue := (qTruthy prevNetMargin).map round1
      trend := getTrend netMargin prevNetMargin
      description := "What\x27s left after all expenses, as a share of revenue" }
  let expenseRatio :=
    if current.totalRevenue > 0 then current.totalExpenses / current.totalRevenue * 100 else 0
  let prevExpenseRatio : Option ℚ :=
    match previous with
    | some p => if p.totalRevenue > 0 then some (p.totalExpenses / p.totalRevenue * 100) else none
    | none => none
  let expenseRatioRatio : RatioResult :=
    { name := "Expense Ratio"
      value := round1 expenseRatio
      previousValue := (qTruthy prevExpenseRatio).map round1
      trend :=
        match qTruthy prevExpenseRatio with
        | some p =>
          if expenseRatio < p - 1 then .improving
          else if expenseRatio > p + 1 then .declining
          else .stable
        | none => .stable
      description := "Your regular costs as a share of revenue" }
  let revenueGrowthRatios : List RatioResult :=
    match previous with
    | some p =>
      if p.totalRevenue > 0 then
        let revenueGrowth := (current.totalRevenue - p.totalRevenue) / |p.totalRevenue| * 100
        [{ name := "Revenue Growth"
           value := round1 revenueGrowth
           previousValue := none
           trend :=
             if revenueGrowth > 2 then .improving
             else if revenueGrowth < -2 then .declining
             else .stable
           description := "How this month compares to last month" }]
      else []
    | none => []
  let cashRunwayRatios : List RatioResult :=
    match cashPosition with
    | some cp =>
      if current.totalExpenses > 0 then
        let monthlyBurn := current.totalExpenses - current.totalRevenue
        let runwayMonths := if monthlyBurn > 0 then cp.currentBalance / monthlyBurn else 99
        [{ name := "Cash Runway"
           value := round1 (min runwayMonths 99)
           previousValue := none
           trend :=
             if runwayMonths < 3 then .declining
             else if runwayMonths < 6 then .stable
             else .improving
           description := "Months your cash will last at current spending" }]
      else []
    | none => []
  [grossMarginRatio, profitMarginRatio, expenseRatioRatio] ++ revenueGrowthRatios ++ cashRunwayRatios

/-- `detectDirection(values)`: classify the period-to-period step sequence
(3% relative step threshold; the float literals 0.03 and 0.7 are the exact
rationals 3/100 and 7/10). The up- and down-step predicates are mutually
exclusive, so counting them independently matches the source's
`if/else if`. -/
def detectDirection (values : List ℚ) : TrendDirection :=
  let pairs := values.zip (values.drop 1)
  let ups := pairs.countP (fun pr => decide (pr.2 - pr.1 > |pr.1| * (3 / 100)))
  let downs := pairs.countP (fun pr => decide (pr.2 - pr.1 < -(|pr.1| * (3 / 100))))
  let total := values.length - 1
  if (ups : ℚ) ≥ (total : ℚ) * (7 / 10) then .increasing
  else if (downs : ℚ) ≥ (total : ℚ) * (7 / 10) then .decreasing
  else if 0 < ups ∧ 0 < downs ∧ (ups : ℚ) + (downs : ℚ) ≥ (total : ℚ) * (7 / 10) then .volatile
  else .stable

/-- `describeTrend(metric, direction, periods, magnitude)`. -/
def describeTrend (metric : String) (direction : TrendDirection) (periods : ℕ)
    (magnitude : ℚ) : String :=
  let dirWord :=
    if direction = .increasing then "been growing"
    else if direction = .decreasing then "been declining"
    else "been fluctuating"
  metric ++ " has " ++ dirWord ++ " over the past " ++ toString periods ++ " months (" ++
    fmt magnitude ++ "% total change)."

/-- `detectTrends(periods)`: requires ≥2 periods; reports only non-stable
directions; magnitude is the total percent change first→last. -/
def detectTrends (periods : List ProfitAndLoss) : List TrendResult :=
  if periods.length < 2 then [] else
  let metrics : List ((ProfitAndLoss → ℚ) × String) :=
    [(ProfitAndLoss.totalRevenue, "Revenue"),
     (ProfitAndLoss.totalExpenses, "Expenses"),
     (ProfitAndLoss.netIncome, "Profit"),
     (ProfitAndLoss.grossProfit, "Gross Profit")]
  metrics.filterMap (fun m =>
    let values := periods.map m.1
    let direction := detectDirection values
    if direction = .stable then none
    else
      let firstVal := values.headD 0
      let lastVal := values.getLastD 0
      let magnitude := if firstVal ≠ 0 then |(lastVal - firstVal) / |firstVal| * 100| else 0
      some { metric := m.2
             direction := direction
             periods := periods.length
             magnitude := round1 magnitude
             description := describeTrend m.2 direction periods.length magnitude })

-- The anomaly detector compares an amount against `mean ± 1.5·σ` where
-- `σ = √variance` is in general irrational. The comparisons are embedded by
-- their exact decidable renderings over ℚ: with `r := (1.5·σ)² = 9·variance/4`,
--   `mean + 1.5σ < x  ↔  0 < x - mean ∧ r < (x - mean)²`
--   `x < mean - 1.5σ  ↔  0 < mean - x ∧ r < (mean - x)²`
--   `mean - 1.5σ ≤ 0  ↔  mean ≤ 0 ∨ mean² ≤ r`.

/-- `√r < q` decided over ℚ (for `r ≥ 0`). -/
def sqrtLt (r q : ℚ) : Bool := decide (0 < q) && decide (r < q ^ 2)

/-- `q ≤ √r` decided over ℚ (for `r ≥ 0`). -/
def leSqrt (q r : ℚ) : Bool := decide (q ≤ 0) || decide (q ^ 2 ≤ r)

/-- `√r ≤ q` decided over ℚ (for `r ≥ 0`). -/
def sqrtLe (r q : ℚ) : Bool := decide (0 ≤ q) && decide (r ≤ q ^ 2)

/-- `⌊y + √r⌋` computed over ℚ (for `r ≥ 0`): with `s = ⌊√r⌋` and
`f = y - ⌊y⌋ ∈ [0,1)`, the floor is `⌊y⌋ + s + 1` exactly when
`s + 1 - f ≤ √r`, else `⌊y⌋ + s`. -/
def floorAddSqrt (y r : ℚ) : ℤ :=
  let c := ⌊y⌋
  let f := y - (c : ℚ)
  let s : ℤ := (Nat.sqrt ⌊r⌋.toNat : ℤ)
  if leSqrt ((s : ℚ) + 1 - f) r then c + s + 1 else c + s

/-- `⌊y - √r⌋` computed over ℚ (for `r ≥ 0`): with `s = ⌊√r⌋`, the floor is
`⌊y⌋ - s` exactly when `√r ≤ y - (⌊y⌋ - s)`, else `⌊y⌋ - s - 1`. -/
def floorSubSqrt (y r : ℚ) : ℤ :=
  let c := ⌊y⌋
  let s : ℤ := (Nat.sqrt ⌊r⌋.toNat : ℤ)
  if sqrtLe r (y - ((c - s : ℤ) : ℚ)) then c - s
  else c - s - 1

/-- `detectAnomalies(periods)`: requires ≥3 periods; only the most recent
period's expense categories are tested against the mean and population
standard deviation of the same category in all prior periods (≥2 historical
observations required). `Math.round(mean + 1.5σ)` is
`floorAddSqrt (mean + 1/2) (9·variance/4)`, and the lower bound is clamped
at 0 before rounding. Severity is by `|((x - mean)/mean)·100|`; when
`mean = 0` that JS expression is `±Infinity`, hence always `high`. -/
def detectAnomalies (periods : List ProfitAndLoss) : List AnomalyResult :=
  if periods.length < 3 then [] else
  match periods.getLast? with
  | none => []
  | some latestPeriod =>
    let historicalPeriods := periods.dropLast
    let anomalies := latestPeriod.expenseCategories.filterMap (fun category =>
      let historicalValues :=
        (historicalPeriods.filterMap
          (fun p => p.expenseCategories.find? (fun c => c.name == category.name))).map (·.amount)
      if historicalValues.length < 2 then none
      else
        let mean := historicalValues.sum / (historicalValues.length : ℚ)
        let varPop :=
          (historicalValues.map (fun v => (v - mean) ^ 2)).sum / (historicalValues.length : ℚ)
        let r := 9 * varPop / 4
        let isHigh := sqrtLt r (category.amount - mean)
        let isLow :=
          if leSqrt mean r then decide (category.amount < 0)
          else sqrtLt r (mean - category.amount)
        if isHigh || isLow then
          let upperRounded := floorAddSqrt (mean + 1 / 2) r
          let lowerRounded := if leSqrt mean r then 0 else floorSubSqrt (mean + 1 / 2) r
          let severity : AnomalySeverity :=
            if mean = 0 then .high
            else
              let deviation := |(category.amount - mean) / mean * 100|
              if deviation > 50 then .high else if deviation > 25 then .medium else .low
          some { metric := category.name
                 value := category.amount
                 expectedRange := { min := lowerRounded, max := upperRounded }
                 severity := severity
                 description := category.name ++ " is " ++
                   (if category.amount > mean then "higher" else "lower") ++
                   " than usual. Expected range: $" ++ toString lowerRounded ++ "–$" ++
                   toString upperRounded ++ ", actual: $" ++ fmtUSD category.amount ++ "."
               }
        else none)
    anomalies.mergeSort (fun a b =>
      decide ((if a.severity = .high then 0 else if a.severity = .medium then 1 else 2) ≤
        (if b.severity = .high then (0 : ℕ) else if b.severity = .medium then 1 else 2)))

-- ════════════════════════════════════════════════════════
-- Issue Synthesizer (generateIssues)
-- ════════════════════════════════════════════════════════

/-- Severity display order: critical < warning < info. -/
def severityRank : IssueSeverity → ℕ
  | .critical => 0
  | .warning => 1
  | .info => 2

/-- The critical cash-runway issue record. -/
def cashIssueOf (cashRunway : RatioResult) (nowISO : String) : Issue :=
  { id := "iss-cash-runway"
    severity := .critical
    title := "Cash runway is getting short"
    description := "At current spending, your cash will last about " ++
      fmt cashRunway.value ++ " months. Consider reducing expenses or increasing revenue."
    metric := "cash_runway"
    currentValue := cashRunway.value
    threshold := some 3
    firstDetectedAt := nowISO
    periodsActive := 1 }

/-- Each candidate issue is paired with its root-cause tag (the key added to
the source's `rootCauses` set when the issue is pushed). -/
def cashIssues (ratios : List RatioResult) (nowISO : String) : List (Issue × String) :=
  match ratios.find? (fun r => r.name == "Cash Runway") with
  | some cashRunway =>
    if cashRunway.value < 3 then [(cashIssueOf cashRunway nowISO, "cash")]
    else []
  | none => []

/-- The expenses-growing-faster-than-revenue issue record. -/
def expenseIssueOf (revenueVariance expenseVariance : VarianceResult) (nowISO : String) : Issue :=
  { id := "iss-expense-revenue"
    severity :=
      if expenseVariance.percentChange > revenueVariance.percentChange + 15 then .critical
      else .warning
    title := "Expenses growing faster than revenue"
    description := "Your costs grew " ++ fmt expenseVariance.percentChange ++
      "% while revenue " ++
      (if revenueVariance.direction = .up then
        "only grew " ++ fmt revenueVariance.percentChange ++ "%"
      else "declined " ++ fmt |revenueVariance.percentChange| ++ "%") ++
      ". This gap is squeezing your margins."
    metric := "expense_to_revenue_ratio"
    currentValue := expenseVariance.percentChange
    threshold := some (revenueVariance.percentChange + 5)
    firstDetectedAt := nowISO
    periodsActive := 1 }

def expenseIssues (variances : List VarianceResult) (rootCauses : List String)
    (nowISO : String) : List (Issue × String) :=
  match variances.find? (fun v => v.metric == "Revenue"),
      variances.find? (fun v => v.metric == "Total Expenses") with
  | some revenueVariance, some expenseVariance =>
    if expenseVariance.percentChange > revenueVariance.percentChange + 5 ∧
        "expense_revenue" ∉ rootCauses then
      [(expenseIssueOf revenueVariance expenseVariance nowISO, "expense_revenue")]
    else []
  | _, _ => []

/-- The declining-margin issue record. -/
def marginIssueOf (marginTrend : TrendResult) (nowISO : String) : Issue :=
  { id := "iss-margin-decline"
    severity := if 3 ≤ marginTrend.periods then .warning else .info
    title := "Profit margin declining for " ++ toString marginTrend.periods ++ " months"
    description := "Your gross profit has been shrinking for " ++
      toString marginTrend.periods ++ " consecutive months, dropping a total of " ++
      fmt marginTrend.magnitude ++ "%."
    metric := "gross_margin_trend"
    currentValue := marginTrend.magnitude
    threshold := none
    firstDetectedAt := nowISO
    periodsActive := marginTrend.periods }

def marginIssues (trends : List TrendResult) (rootCauses : List String)
    (nowISO : String) : List (Issue × String) :=
  match trends.find? (fun t => t.metric == "Gross Profit" && decide (t.direction = .decreasing)) with
  | some marginTrend =>
    if 2 ≤ marginTrend.periods ∧ "margin" ∉ rootCauses then
      [(marginIssueOf marginTrend nowISO, "margin")]
    else []
  | none => []

/-- `anomaly.metric.toLowerCase().replace(/\s+/g, "-")`: lowercase, then
collapse each whitespace run into one hyphen. -/
def collapseWs : List Char → List Char
  | [] => []
  | c :: rest =>
    if c.isWhitespace then
      '-' :: collapseWs (rest.dropWhile Char.isWhitespace)
    else c :: collapseWs rest
termination_by l => l.length
decreasing_by
  · simp only [List.length_cons]
    exact Nat.lt_succ_of_le (List.dropWhile_sublist _).length_le
  · simp

def slugify (s : String) : String := ⟨collapseWs s.toLower.data⟩

/-- The unusual-spending issue record for one anomaly. -/
def anomalyIssueOf (a : AnomalyResult) (nowISO : String) : Issue :=
  { id := "iss-anomaly-" ++ slugify a.metric
    severity := if a.severity = .high then .warning else .info
    title := "Unusual spending on " ++ a.metric
    description := a.description
    metric := "anomaly_" ++ a.metric
    currentValue := a.value
    threshold := none
    firstDetectedAt := nowISO
    periodsActive := 1 }

/-- The `for (const anomaly of anomalies.slice(0, 2))` loop, threading the
`rootCauses` set. -/
def anomalyIssues : List AnomalyResult → List String → String → List (Issue × String)
  | [], _, _ => []
  | a :: rest, rootCauses, nowISO =>
    let rootKey := "anomaly-" ++ a.metric
    if rootKey ∈ rootCauses then anomalyIssues rest rootCauses nowISO
    else (anomalyIssueOf a nowISO, rootKey) :: anomalyIssues rest (rootKey :: rootCauses) nowISO

/-- The candidate issues of `generateIssues` in push order, each paired with
its root-cause tag. On entry to the anomaly loop the `rootCauses` set holds
exactly the tags of the issues pushed so far. -/
def generateIssuesTagged (variances : List VarianceResult) (ratios : List RatioResult)
    (trends : List TrendResult) (anomalies : List AnomalyResult)
    (nowISO : String) : List (Issue × String) :=
  let i1 := cashIssues ratios nowISO
  let i2 := expenseIssues variances (i1.map Prod.snd) nowISO
  let i3 := marginIssues trends ((i1 ++ i2).map Prod.snd) nowISO
  let pre := i1 ++ i2 ++ i3
  pre ++ anomalyIssues (anomalies.take 2) (pre.map Prod.snd) nowISO

/-- JS comparator `order[a.severity] - order[b.severity] ||
b.currentValue - a.currentValue` as a total preorder. -/
def issueLe (a b : Issue) : Bool :=
  decide (severityRank a.severity < severityRank b.severity) ||
    (decide (severityRank a.severity = severityRank b.severity) &&
      decide (b.currentValue ≤ a.currentValue))

/-- The sorted-and-capped issue/tag pairs (JS stable sort modeled by
`mergeSort`, then `slice(0, 5)`). -/
def generateIssuesSorted (variances : List VarianceResult) (ratios : List RatioResult)
    (trends : List TrendResult) (anomalies : List AnomalyResult)
    (cashPosition : Option CashPosition) (nowISO : String) : List (Issue × String) :=
  let _ := cashPosition
  ((generateIssuesTagged variances ratios trends anomalies nowISO).mergeSort
    (fun a b => issueLe a.1 b.1)).take 5

/-- `generateIssues(variances, ratios, trends, anomalies, cashPosition)`
(the `cashPosition` parameter is unused in the source as well). -/
def generateIssues (variances : List VarianceResult) (ratios : List RatioResult)
    (trends : List TrendResult) (anomalies : List AnomalyResult)
    (cashPosition : Option CashPosition) (nowISO : String) : List Issue :=
  (generateIssuesSorted variances ratios trends anomalies cashPosition nowISO).map Prod.fst

-- ════════════════════════════════════════════════════════
-- QuickBooks report parser (src/lib/integrations/quickbooks-parser)
-- ════════════════════════════════════════════════════════

/-- One cell of a QuickBooks report row. The raw API carries every cell as an
optional string; the parser reads a cell both as text (category names, with
JS-falsy defaulting) and as a number via `parseFloat(value || "0")`.
Decimal-string parsing is outside the embedding, so a cell carries both
readings: `text`, and `num`, its value under `parseFloat(value || "0")`
(hence 0 for a missing or empty cell). -/
structure QBCol where
  text : Option String
  num : ℚ

/-- A QuickBooks report row: `group`, `Summary.ColData` (the two optional
levels of `row.Summary?.ColData?` collapse into one `Option`, since either
being absent reads as a missing cell), `ColData`, and nested `Rows.Row`. -/
inductive QBRow where
  | mk : Option String → Option (List QBCol) → Option (List QBCol) → Option (List QBRow) → QBRow

def QBRow.group : QBRow → Option String
  | .mk g _ _ _ => g

def QBRow.summary : QBRow → Option (List QBCol)
  | .mk _ s _ _ => s

def QBRow.colData : QBRow → Option (List QBCol)
  | .mk _ _ c _ => c

/-- `row.Rows?.Row` read as a list (absent ⇒ nothing to iterate; an empty
array is truthy in JS, so it behaves the same as iterating `[]`). -/
def QBRow.childRows : QBRow → List QBRow
  | .mk _ _ _ r => r.getD []

structure QBColumn where
  colTitle : Option String

structure QBHeader where
  startPeriod : String
  endPeriod : String

structure QBReport where
  header : QBHeader
  columns : Option (List QBColumn)
  rows : Option (List QBRow)

/-- `parseFloat(cell?.value || "0")` for a possibly-missing cell. -/
def qbNum (c : Option QBCol) : ℚ :=
  match c with
  | some cell => cell.num
  | none => 0

/-- `cell?.value || d` for a possibly-missing cell. -/
def qbText (c : Option QBCol) (d : String) : String :=
  match c with
  | some cell => strOr cell.text d
  | none => d

/-- `formatPeriodLabel(start, end)` (locale-specific `Date` rendering
abstracted; no claim depends on the label text). -/
def formatPeriodLabel (start finish : String) : String := start ++ " – " ++ finish

/-- Accumulator for the parser's `switch` loop over report rows. -/
structure PnLState where
  totalRevenue : ℚ := 0
  totalCogs : ℚ := 0
  grossProfit : ℚ := 0
  totalExpenses : ℚ := 0
  netIncome : ℚ := 0
  expenseCategories : List ExpenseCategory := []

/-- The expense-category extraction of `parseProfitAndLoss` (requires
`ColData.length >= 2`, name defaulted to `"Unknown"`, zero amounts and empty
names skipped). -/
def extractExpenseRows (children : List QBRow) : List ExpenseCategory :=
  children.filterMap (fun expRow =>
    match expRow.colData with
    | some cols =>
      if 2 ≤ cols.length then
        let nm := qbText (cols.get? 0) "Unknown"
        let amount := qbNum (cols.get? 1)
        if amount ≠ 0 ∧ nm ≠ "" then some ⟨nm, amount⟩ else none
      else none
    | none => none)

/-- One `switch (groupName)` step of `parseProfitAndLoss`. -/
def pnlStep (s : PnLState) (row : QBRow) : PnLState :=
  let groupName := strOr row.group ""
  let summaryValue := qbNum ((row.summary.getD []).get? 1)
  if groupName = "Income" then { s with totalRevenue := summaryValue }
  else if groupName = "COGS" then { s with totalCogs := summaryValue }
  else if groupName = "GrossProfit" then { s with grossProfit := summaryValue }
  else if groupName = "Expenses" then
    { s with totalExpenses := summaryValue
             expenseCategories := s.expenseCategories ++ extractExpenseRows row.childRows }
  else if groupName = "OtherExpenses" then { s with totalExpenses := s.totalExpenses + summaryValue }
  else if groupName = "NetIncome" ∨ groupName = "NetOperatingIncome" then
    { s with netIncome := summaryValue }
  else s

/-- `parseProfitAndLoss(report)`. -/
def parseProfitAndLoss (report : QBReport) : ProfitAndLoss :=
  let rows := report.rows.getD []
  let s := rows.foldl pnlStep {}
  let grossProfit :=
    if s.grossProfit = 0 ∧ 0 < s.totalRevenue then s.totalRevenue - s.totalCogs
    else s.grossProfit
  { period := { periodStart := report.header.startPeriod
                periodEnd := report.header.endPeriod
                label := formatPeriodLabel report.header.startPeriod report.header.endPeriod }
    totalRevenue := s.totalRevenue
    totalCogs := s.totalCogs
    grossProfit := grossProfit
    totalExpenses := s.totalExpenses
    netIncome := s.netIncome
    expenseCategories := s.expenseCategories.mergeSort
      (fun a b => decide (|b.amount| ≤ |a.amount|)) }

/-- The expense-category extraction of `parseMonthlyPnL` for one data
column (requires `ColData.length > dataIdx`; no empty-name check in this
parser). -/
def extractMonthlyExpenseRows (dataIdx : ℕ) (children : List QBRow) : List ExpenseCategory :=
  children.filterMap (fun expRow =>
    match expRow.colData with
    | some cols =>
      if dataIdx < cols.length then
        let nm := qbText (cols.get? 0) "Unknown"
        let amount := qbNum (cols.get? dataIdx)
        if amount ≠ 0 then some ⟨nm, amount⟩ else none
      else none
    | none => none)

/-- One `switch (groupName)` step of `parseMonthlyPnL` for one data column
(this parser has no `OtherExpenses` case). -/
def pnlMonthStep (dataIdx : ℕ) (s : PnLState) (row : QBRow) : PnLState :=
  let groupName := strOr row.group ""
  let summaryValue := qbNum ((row.summary.getD []).get? dataIdx)
  if groupName = "Income" then { s with totalRevenue := summaryValue }
  else if groupName = "COGS" then { s with totalCogs := summaryValue }
  else if groupName = "GrossProfit" then { s with grossProfit := summaryValue }
  else if groupName = "Expenses" then
    { s with totalExpenses := summaryValue
             expenseCategories := s.expenseCategories ++ extractMonthlyExpenseRows dataIdx row.childRows }
  else if groupName = "NetIncome" ∨ groupName = "NetOperatingIncome" then
    { s with netIncome := summaryValue }
  else s

/-- `col.ColTitle && col.ColTitle !== "Total"`. -/
def colTitleOk (col : QBColumn) : Bool :=
  match col.colTitle with
  | some t => !(t == "") && !(t == "Total")
  | none => false

/-- `parseMonthlyPnL(report)`: one Period Statement per month column. -/
def parseMonthlyPnL (report : QBReport) : List ProfitAndLoss :=
  let columns := report.columns.getD []
  let rows := report.rows.getD []
  let monthColumns := (columns.drop 1).filter colTitleOk
  monthColumns.enum.map (fun pr =>
    let dataIdx := pr.1 + 1
    let s := rows.foldl (pnlMonthStep dataIdx) {}
    let grossProfit :=
      if s.grossProfit = 0 ∧ 0 < s.totalRevenue then s.totalRevenue - s.totalCogs
      else s.grossProfit
    let colTitle := pr.2.colTitle.getD ""
    { period := { periodStart := colTitle, periodEnd := colTitle, label := colTitle }
      totalRevenue := s.totalRevenue
      totalCogs := s.totalCogs
      grossProfit := grossProfit
      totalExpenses := s.totalExpenses
      netIncome := s.netIncome
      expenseCategories := s.expenseCategories.mergeSort
        (fun a b => decide (|b.amount| ≤ |a.amount|)) })

-- ════════════════════════════════════════════════════════
-- AI explanation layer (src/lib/ai/explanations)
-- ════════════════════════════════════════════════════════

inductive InsightType where
  | variance | trend | anomaly | health_signal | issue
deriving DecidableEq, Repr

inductive ConfidenceLevel where
  | high | medium | low
deriving DecidableEq, Repr

structure AIInsight where
  id : String
  type : InsightType
  summary : String
  evidence : String
  confidence : ConfidenceLevel
  action : Option String
  severity : Option IssueSeverity
  promptVersion : String
  generatedAt : String
  isStale : Bool
deriving DecidableEq, Repr

def PROMPT_VERSION : String := "v1.0"

/-- `callAI(prompt)`: the text-generation call (`generateText`) either
returns text or throws; the `try`/`catch` inside `callAI` converts a throw
into `{ action: undefined }`, so no exception ever escapes. The outcome of
the external call is supplied as an `Except`. -/
def callAI (result : Except Unit String) : Option String :=
  match result with
  | .ok text => some text.trim
  | .error _ => none

def buildVariancePrompt (variances : List VarianceResult) (current : ProfitAndLoss)
    (previous : Option ProfitAndLoss) : String :=
  let _ := previous
  let varianceLines := String.intercalate "\n" (variances.map (fun v =>
    "• " ++ v.metric ++ ": $" ++ fmtUSD v.currentValue ++ " (" ++ dirStr v.direction ++ " " ++
      fmt |v.percentChange| ++ "% from $" ++ fmtUSD v.previousValue ++ ")"))
  "Based on these metric changes, suggest ONE actionable next step for the business owner (1-2 sentences max):\n\n" ++
    varianceLines ++ "\n\nTop expense categories this period:\n" ++
    String.intercalate "\n" ((current.expenseCategories.take 5).map (fun c =>
      "• " ++ c.name ++ ": $" ++ fmtUSD c.amount)) ++
    "\n\nOnly suggest actions using the data above. Do NOT invent numbers."

def buildTrendPrompt (trend : TrendResult) (ratios : List RatioResult) : String :=
  "A business\x27s " ++ trend.metric ++ " has been " ++ trendDirStr trend.direction ++ " for " ++
    toString trend.periods ++ " months (" ++ fmt trend.magnitude ++ "% total change).\n\nCurrent ratios:\n" ++
    String.intercalate "\n" (ratios.map (fun r => "• " ++ r.name ++ ": " ++ fmt r.value ++ "%")) ++
    "\n\nSuggest ONE specific, actionable next step (1-2 sentences max). Do NOT generate numbers."

/-- `getVarianceSummary(variances)`: a flat Net Income variance falls
through to the Revenue branch, which itself falls through to the generic
sentence. -/
def getVarianceSummary (variances : List VarianceResult) : String :=
  let fromRevenue : Option String :=
    match variances.find? (fun v => v.metric == "Revenue") with
    | some revenue =>
      if revenue.direction ≠ .flat then
        some ("Revenue " ++ (if revenue.direction = .up then "grew" else "declined") ++ " " ++
          fmt |revenue.percentChange| ++ "% this period")
      else none
    | none => none
  let fallback := fromRevenue.getD "Several financial metrics changed significantly this period"
  match variances.find? (fun v => v.metric == "Net Income") with
  | some netIncome =>
    if netIncome.direction = .down then
      "Your profit dropped " ++ fmt |netIncome.percentChange| ++ "% compared to last month"
    else if netIncome.direction = .up then
      "Your profit increased " ++ fmt netIncome.percentChange ++ "% compared to last month"
    else fallback
  | none => fallback

def buildEvidenceFromVariances (variances : List VarianceResult) : String :=
  String.intercalate ". " (variances.map (fun v =>
    v.metric ++ ": $" ++ fmtUSD v.previousValue ++ " → $" ++ fmtUSD v.currentValue ++ " (" ++
      (if v.direction = .up then "+" else "") ++ fmt v.percentChange ++ "%)"))

/-- The metrics bundle consumed by `generateInsightsFromMetrics`. -/
structure MetricsData where
  variances : List VarianceResult
  ratios : List RatioResult
  trends : List TrendResult
  anomalies : List AnomalyResult
  issues : List Issue
  current : ProfitAndLoss
  previous : Option ProfitAndLoss
deriving Repr

/-- `generateInsightsFromMetrics(data)`. The sequentially-awaited
text-generation calls are supplied by an oracle `ai` mapping a call index
and the built prompt to that call's outcome; `Date.now()` and
`new Date().toISOString()` are the parameters `now` and `nowISO`. -/
def generateInsightsFromMetrics (ai : ℕ → String → Except Unit String) (now : ℕ)
    (nowISO : String) (data : MetricsData) : List AIInsight :=
  let significantVariances := data.variances.filter
    (fun v => !(decide (v.significance = .low)) && !(v.metric == "Cost of Goods Sold"))
  let varianceInsights : List AIInsight :=
    if 0 < significantVariances.length then
      let prompt := buildVariancePrompt significantVariances data.current data.previous
      let explanation := callAI (ai 0 prompt)
      [{ id := "ins-var-" ++ toString now
         type := .variance
         summary := getVarianceSummary significantVariances
         evidence := buildEvidenceFromVariances significantVariances
         confidence :=
           if significantVariances.any (fun v => decide (v.significance = .high)) then .high
           else .medium
         action := explanation
         severity := none
         promptVersion := PROMPT_VERSION
         generatedAt := nowISO
         isStale := false }]
    else []
  let baseCalls := varianceInsights.length
  let trendInsights : List AIInsight :=
    (data.trends.take 2).enum.map (fun pr =>
      let trend := pr.2
      let prompt := buildTrendPrompt trend data.ratios
      let explanation := callAI (ai (baseCalls + pr.1) prompt)
      { id := "ins-trend-" ++ trend.metric ++ "-" ++ toString now
        type := .trend
        summary := trend.description
        evidence := trend.metric ++ " has moved " ++ fmt trend.magnitude ++ "% over " ++
          toString trend.periods ++ " months."
        confidence := if 3 ≤ trend.periods then .high else .medium
        action := explanation
        severity := none
        promptVersion := PROMPT_VERSION
        generatedAt := nowISO
        isStale := false })
  let anomalyInsights : List AIInsight :=
    (data.anomalies.take 2).map (fun anomaly =>
      { id := "ins-anomaly-" ++ anomaly.metric ++ "-" ++ toString now
        type := .anomaly
        summary := anomaly.metric ++ " is unusually " ++
          (if anomaly.value > ((anomaly.expectedRange.min : ℚ) + (anomaly.expectedRange.max : ℚ)) / 2
            then "high" else "low") ++ " this period"
        evidence := anomaly.description
        confidence := if anomaly.severity = .high then .high else .medium
        action := some ("Review recent " ++ anomaly.metric.toLower ++
          " to check if this is a one-time event or a new pattern.")
        severity := none
        promptVersion := PROMPT_VERSION
        generatedAt := nowISO
        isStale := false })
  let decliningRatios := data.ratios.filter (fun r => decide (r.trend = .declining))
  let healthInsights : List AIInsight :=
    if 0 < decliningRatios.length then
      [{ id := "ins-health-" ++ toString now
         type := .health_signal
         summary := toString decliningRatios.length ++ " health signal" ++
           (if 1 < decliningRatios.length then "s" else "") ++ " trending downward"
         evidence := String.intercalate ". " (decliningRatios.map (fun r =>
           r.name ++ ": " ++ fmt r.value ++ "%" ++
             (match qTruthy r.previousValue with
              | some p => " (was " ++ fmt p ++ "%)"
              | none => "")))
         confidence := .high
         action := none
         severity := none
         promptVersion := PROMPT_VERSION
         generatedAt := nowISO
         isStale := false }]
    else []
  varianceInsights ++ trendInsights ++ anomalyInsights ++ healthInsights

/-- An insight with its `action` field dropped: everything the gateway
computes deterministically, independent of the text-generation calls. -/
def eraseAction (ins : AIInsight) : AIInsight := { ins with action := none }

/-- The unrounded percent change a returned variance entry was computed
from (recoverable from the stored exact current/previous values). -/
def rawPercentChange (v : VarianceResult) : ℚ :=
  if v.previousValue ≠ 0 then (v.currentValue - v.previousValue) / |v.previousValue| * 100 else 0

-- ════════════════════════════════════════════════════════
-- Concrete inputs for the spec's scenarios and witnesses
-- ════════════════════════════════════════════════════════

def emptyPeriod : PeriodData := { periodStart := "", periodEnd := "", label := "" }

/-- A Period Statement with every amount 0. -/
def basePL : ProfitAndLoss :=
  { period := emptyPeriod, totalRevenue := 0, totalCogs := 0, grossProfit := 0,
    totalExpenses := 0, netIncome := 0, expenseCategories := [] }

-- Scenario 1: revenue 120,000 against 100,000.
def sc1current : ProfitAndLoss := { basePL with totalRevenue := 120000 }

def sc1previous : ProfitAndLoss := { basePL with totalRevenue := 100000 }

/-- The Revenue variance of Scenario 1. -/
def sc1variance : VarianceResult :=
  { metric := "Revenue", currentValue := 120000, previousValue := 100000,
    absoluteChange := 20000, percentChange := 20, direction := .up, significance := .medium }

-- Scenario 2: cash balance 15,000; expenses 20,000; revenue 15,000.
def sc2current : ProfitAndLoss :=
  { basePL with totalRevenue := 15000, totalExpenses := 20000 }

def sc2cash : CashPosition := { currentBalance := 15000, previousBalance := 0, asOfDate := "" }

-- Scenario 3: gross profit strictly decreasing by a 10% relative step each
-- month over five months (every step exceeds the 3% threshold).
def sc3periods : List ProfitAndLoss :=
  [{ basePL with grossProfit := 10000 }, { basePL with grossProfit := 9000 },
   { basePL with grossProfit := 8100 }, { basePL with grossProfit := 7290 },
   { basePL with grossProfit := 6561 }]

/-- The Gross Profit trend detected on Scenario 3 (total change
(6561 − 10000)/10000·100 = −34.39, magnitude |−34.39| = 34.39). -/
def sc3trend : TrendResult :=
  { metric := "Gross Profit", direction := .decreasing, periods := 5,
    magnitude := round1 |(3439 : ℚ) / 100|,
    description := describeTrend "Gross Profit" .decreasing 5 |(3439 : ℚ) / 100| }

-- Scenario 5: one significant variance plus one trend; the text-generation
-- call succeeds for the variance insight and throws for the trend insight.
def sc5trendInput : TrendResult :=
  { metric := "Revenue", direction := .increasing, periods := 2, magnitude := 20,
    description := "Revenue has been growing over the past 2 months (20% total change)." }

def sc5data : MetricsData :=
  { variances := [sc1variance], ratios := [], trends := [sc5trendInput], anomalies := [],
    issues := [], current := basePL, previous := none }

def sc5oracle : ℕ → String → Except Unit String :=
  fun k _ => if k = 0 then .ok "Keep an eye on costs." else .error ()

-- C5: a previous period with nonzero but negative revenue.
def c5current : ProfitAndLoss := { basePL with totalRevenue := 1000 }

def c5previous : ProfitAndLoss := { basePL with totalRevenue := -1 }

-- C5 witness: revenue 2,000 against 1,000 (growth +100% > 2%).
def c5wCurrent : ProfitAndLoss := { basePL with totalRevenue := 2000 }

def c5wPrevious : ProfitAndLoss := { basePL with totalRevenue := 1000 }

def c5wRatio : RatioResult :=
  { name := "Revenue Growth", value := 100, previousValue := none, trend := .improving,
    description := "How this month compares to last month" }

-- C7 witness: one shared category, +10% change.
def c7current : ProfitAndLoss :=
  { basePL with expenseCategories := [{ name := "Rent", amount := 1100 }] }

def c7previous : ProfitAndLoss :=
  { basePL with expenseCategories := [{ name := "Rent", amount := 1000 }] }

def c7variance : VarianceResult :=
  { metric := "Rent", currentValue := 1100, previousValue := 1000,
    absoluteChange := 100, percentChange := 10, direction := .up, significance := .low }

-- C8 witness: a category flat at 1,000 for three months, then 2,000.
def c8catPL (amount : ℚ) : ProfitAndLoss :=
  { basePL with expenseCategories := [{ name := "Software", amount := amount }] }

def c8periods : List ProfitAndLoss := [c8catPL 1000, c8catPL 1000, c8catPL 1000, c8catPL 2000]

def c8anomaly : AnomalyResult :=
  { metric := "Software", value := 2000, expectedRange := { min := 1000, max := 1000 },
    severity := .high,
    description := "Software is higher than usual. Expected range: $1000–$1000, actual: $2000." }

/-- The issue generated from `c8anomaly` (also the C4 witness issue). -/
def c8issue (nowISO : String) : Issue := anomalyIssueOf c8anomaly nowISO

-- C9 counterexample: a report with a COGS row but no Income and no
-- GrossProfit row, so grossProfit is not supplied and totalRevenue is 0.
def c9report : QBReport :=
  { header := { startPeriod := "2024-01-01", endPeriod := "2024-01-31" }
    columns := none
    rows := some [QBRow.mk (some "COGS")
      (some [{ text := some "Total COGS", num := 0 }, { text := some "500.00", num := 500 }])
      none none] }

-- C9 witness: a report with Income 800 and COGS 300 and no GrossProfit row.
def c9wReport : QBReport :=
  { header := { startPeriod := "2024-02-01", endPeriod := "2024-02-29" }
    columns := none
    rows := some
      [QBRow.mk (some "Income")
        (some [{ text := some "Total Income", num := 0 }, { text := some "800.00", num := 800 }])
        none none,
       QBRow.mk (some "COGS")
        (some [{ text := some "Total COGS", num := 0 }, { text := some "300.00", num := 300 }])
        none none] }

-- C9 witness for the monthly parser: one month column, Income 900, COGS 400.
def c9wMonthlyReport : QBReport :=
  { header := { startPeriod := "2024-01-01", endPeriod := "2024-01-31" }
    columns := some [{ colTitle := some "Account" }, { colTitle := some "Jan 2024" }]
    rows := some
      [QBRow.mk (some "Income")
        (some [{ text := some "Total Income", num := 0 }, { text := some "900.00", num := 900 }])
        none none,
       QBRow.mk (some "COGS")
        (some [{ text := some "Total COGS", num := 0 }, { text := some "400.00", num := 400 }])
        none none] }

/-- The single Period Statement parsed from `c9wMonthlyReport`. -/
def c9wMonthlyPeriod : ProfitAndLoss :=
  { period := { periodStart := "Jan 2024", periodEnd := "Jan 2024", label := "Jan 2024" }
    totalRevenue := 900, totalCogs := 400, grossProfit := 500, totalExpenses := 0,
    netIncome := 0, expenseCategories := [] }

/-- The unrounded revenue growth used by `computeRatios`. -/
def revenueGrowthOf (current p : ProfitAndLoss) : ℚ :=
  (current.totalRevenue - p.totalRevenue) / |p.totalRevenue| * 100

/-- The Revenue Growth ratio record `computeRatios` emits for a previous
period `p` with positive revenue. -/
def rgRatioOf (current p : ProfitAndLoss) : RatioResult :=
  { name := "Revenue Growth"
    value := round1 (revenueGrowthOf current p)
    previousValue := none
    trend :=
      if revenueGrowthOf current p > 2 then .improving
      else if revenueGrowthOf current p < -2 then .declining
      else .stable
    description := "How this month compares to last month" }

-- C10 witness: previous period with revenue 1,000 and every numerator 0.
def c10previous : ProfitAndLoss := { basePL with totalRevenue := 1000 }

def c10expenseRatio : RatioResult :=
  { name := "Expense Ratio", value := 0, previousValue := none, trend := .stable,
    description := "Your regular costs as a share of revenue" }

-- ════════════════════════════════════════════════════════
-- Helper lemmas
-- ════════════════════════════════════════════════════════

theorem mkHeadlineVariance_spec (metric : String) (cur prev : ℚ) :
    ((mkHeadlineVariance metric cur prev).significance = .high ↔
      20 < |rawPercentChange (mkHeadlineVariance metric cur prev)|) ∧
    ((mkHeadlineVariance metric cur prev).significance = .medium ↔
      10 < |rawPercentChange (mkHeadlineVariance metric cur prev)| ∧
        |rawPercentChange (mkHeadlineVariance metric cur prev)| ≤ 20) ∧
    ((mkHeadlineVariance metric cur prev).significance = .low ↔
      |rawPercentChange (mkHeadlineVariance metric cur prev)| ≤ 10) := by
  simp only [mkHeadlineVariance, rawPercentChange, gt_iff_lt]
  set P : ℚ := if prev ≠ 0 then (cur - prev) / |prev| * 100 else 0 with hP
  split_ifs with h1 h2
  · refine ⟨by simp [h1], ?_, ?_⟩
    · simp only [reduceCtorEq, false_iff, not_and, not_le]
      intro h3
      linarith
    · simp only [reduceCtorEq, false_iff, not_le]
      linarith
  · refine ⟨?_, ?_, ?_⟩
    · simp only [reduceCtorEq, false_iff, not_lt]
      exact not_lt.mp h1
    · simp only [true_iff]
      exact ⟨h2, not_lt.mp h1⟩
    · simp only [reduceCtorEq, false_iff, not_le]
      linarith
  · refine ⟨?_, ?_, ?_⟩
    · simp only [reduceCtorEq, false_iff, not_lt]
      exact not_lt.mp h1
    · simp only [reduceCtorEq, false_iff, not_and, not_le]
      intro h3
      exact absurd h3 h2
    · simp only [true_iff]
      exact not_lt.mp h2

-- ════════════════════════════════════════════════════════
-- Claim theorems
-- ════════════════════════════════════════════════════════

unseal Rat.sub Rat.add Rat.mul Rat.inv in
/-- Claim C3: each headline-metric variance returned by `computeVariances`
has significance `high` exactly when the (unrounded) percent change exceeds
20 in absolute value, `medium` exactly when it lies in (10, 20], and `low`
otherwise; Scenario 1 (revenue 120,000 against 100,000) yields exactly the
Revenue variance with `percentChange = 20`, `direction = up`, and
`significance = medium` (20.0% is medium, not high). -/
theorem claim_C3 :
    (∀ current previous, ∀ v ∈ computeVariances current previous,
      (v.significance = .high ↔ 20 < |rawPercentChange v|) ∧
      (v.significance = .medium ↔
        10 < |rawPercentChange v| ∧ |rawPercentChange v| ≤ 20) ∧
      (v.significance = .low ↔ |rawPercentChange v| ≤ 10)) ∧
    computeVariances sc1current sc1previous = [sc1variance] ∧
    sc1variance.percentChange = 20 ∧ sc1variance.direction = .up ∧
    sc1variance.significance = .medium := by
  refine ⟨?_, by decide, rfl, rfl, rfl⟩
  intro current previous v hv
  simp only [computeVariances, List.mem_map] at hv
  obtain ⟨m, _, rfl⟩ := hv
  exact mkHeadlineVariance_spec m.1 m.2.1 m.2.2

theorem lookupAmount_eq_zero {cats : List ExpenseCategory} {nm : String}
    (h : nm ∉ cats.map ExpenseCategory.name) : lookupAmount cats nm = 0 := by
  have hf : cats.filter (fun c => c.name == nm) = [] := by
    rw [List.filter_eq_nil_iff]
    intro c hc
    simp only [beq_iff_eq]
    intro hcn
    exact h (List.mem_map.mpr ⟨c, hc, hcn⟩)
  simp [lookupAmount, hf]

theorem mem_computeExpenseVariances {current previous : ProfitAndLoss} {v : VarianceResult}
    (hv : v ∈ computeExpenseVariances current previous) :
    (∃ nm, v = mkExpenseVariance nm (lookupAmount current.expenseCategories nm)
      (lookupAmount previous.expenseCategories nm)) ∧ 5 ≤ |v.percentChange| := by
  simp only [computeExpenseVariances, List.mem_mergeSort, List.mem_filter, List.mem_map,
    decide_eq_true_eq] at hv
  obtain ⟨⟨nm, _, rfl⟩, h5⟩ := hv
  exact ⟨⟨nm, rfl⟩, h5⟩

/-- Claim C7: `computeExpenseVariances` never returns an entry with
`|percentChange| < 5`, its output is sorted descending by absolute dollar
change, and a category name missing from one period is treated as amount
0 on that side. -/
theorem claim_C7 : ∀ current previous : ProfitAndLoss,
    (∀ v ∈ computeExpenseVariances current previous, 5 ≤ |v.percentChange|) ∧
    List.Pairwise (fun a b => |b.absoluteChange| ≤ |a.absoluteChange|)
      (computeExpenseVariances current previous) ∧
    (∀ v ∈ computeExpenseVariances current previous,
      (v.metric ∉ previous.expenseCategories.map ExpenseCategory.name →
        v.previousValue = 0) ∧
      (v.metric ∉ current.expenseCategories.map ExpenseCategory.name →
        v.currentValue = 0)) := by
  intro current previous
  refine ⟨fun v hv => (mem_computeExpenseVariances hv).2, ?_, fun v hv => ?_⟩
  · simp only [computeExpenseVariances]
    refine List.Pairwise.imp (fun h => of_decide_eq_true h) ?_
    exact List.sorted_mergeSort
      (fun a b c hab hbc => by
        simp only [decide_eq_true_eq] at *
        exact le_trans hbc hab)
      (fun a b => by
        simp only [Bool.or_eq_true, decide_eq_true_eq]
        exact le_total |b.absoluteChange| |a.absoluteChange|) _
  · obtain ⟨⟨nm, rfl⟩, -⟩ := mem_computeExpenseVariances hv
    constructor
    · intro h
      simpa [mkExpenseVariance] using lookupAmount_eq_zero (by simpa [mkExpenseVariance] using h)
    · intro h
      simpa [mkExpenseVariance] using lookupAmount_eq_zero (by simpa [mkExpenseVariance] using h)

unseal Rat.sub Rat.add Rat.mul Rat.inv List.mergeSort in
theorem claim_C7_witness :
    5 ≤ |c7variance.percentChange| ∧
    ((c7variance.metric ∉ c7previous.expenseCategories.map ExpenseCategory.name →
        c7variance.previousValue = 0) ∧
      (c7variance.metric ∉ c7current.expenseCategories.map ExpenseCategory.name →
        c7variance.currentValue = 0)) :=
  ⟨(claim_C7 c7current c7previous).1 c7variance (by decide),
   (claim_C7 c7current c7previous).2.2 c7variance (by decide)⟩

theorem length_filterMap_eq_countP {α β : Type} (f : α → Option β) (l : List α) :
    (l.filterMap f).length = l.countP (fun a => (f a).isSome) := by
  induction l with
  | nil => rfl
  | cons x xs ih => cases hfx : f x <;> simp [List.filterMap_cons, hfx, List.countP_cons, ih]

/-- Claim C8: with fewer than the minimum periods the detectors return `[]`
rather than raising: `detectTrends` needs ≥2 periods, `detectAnomalies`
needs ≥3, and inside `detectAnomalies` every reported anomaly's category has
at least 2 historical observations (a category with fewer is skipped). -/
theorem claim_C8 :
    (∀ periods : List ProfitAndLoss, periods.length < 2 → detectTrends periods = []) ∧
    (∀ periods : List ProfitAndLoss, periods.length < 3 → detectAnomalies periods = []) ∧
    (∀ periods : List ProfitAndLoss, ∀ a ∈ detectAnomalies periods,
      2 ≤ periods.dropLast.countP
        (fun p => p.expenseCategories.any (fun c => c.name == a.metric))) := by
  refine ⟨fun periods h => by simp [detectTrends, h], fun periods h => by simp [detectAnomalies, h],
    fun periods a ha => ?_⟩
  simp only [detectAnomalies] at ha
  split at ha
  · simp at ha
  · split at ha
    · simp at ha
    · rename_i latestPeriod hlast
      rw [List.mem_mergeSort, List.mem_filterMap] at ha
      obtain ⟨category, hcat, hfa⟩ := ha
      by_cases hlen :
          ((periods.dropLast.filterMap
            (fun p => p.expenseCategories.find? (fun c => c.name == category.name))).map
              (·.amount)).length < 2
      · rw [if_pos hlen] at hfa
        exact absurd hfa (by simp)
      · rw [if_neg hlen, Option.ite_none_right_eq_some] at hfa
        obtain ⟨-, heq⟩ := hfa
        have hmetric : a.metric = category.name := by
          have hinj := Option.some.inj heq
          rw [← hinj]
        clear heq
        push_neg at hlen
        rw [List.length_map, length_filterMap_eq_countP] at hlen
        rw [hmetric]
        calc 2 ≤ _ := hlen
          _ = _ := List.countP_congr (fun p _ => by
            rw [List.find?_isSome, List.any_eq_true])

unseal Rat.sub Rat.add Rat.mul Rat.inv Nat.sqrt.iter List.mergeSort in
theorem claim_C8_witness :
    detectTrends [] = [] ∧ detectAnomalies [] = [] ∧
    2 ≤ c8periods.dropLast.countP
      (fun p => p.expenseCategories.any (fun c => c.name == c8anomaly.metric)) :=
  ⟨claim_C8.1 [] (by decide), claim_C8.2.1 [] (by decide),
   claim_C8.2.2 c8periods c8anomaly (by decide)⟩

theorem trend_ite_spec (g : ℚ) :
    ((if g > 2 then RatioTrend.improving else if g < -2 then .declining else .stable) =
        .improving ↔ 2 < g) ∧
    ((if g > 2 then RatioTrend.improving else if g < -2 then .declining else .stable) =
        .declining ↔ g < -2) ∧
    ((if g > 2 then RatioTrend.improving else if g < -2 then .declining else .stable) =
        .stable ↔ -2 ≤ g ∧ g ≤ 2) := by
  simp only [gt_iff_lt]
  split_ifs with h1 h2
  · refine ⟨by simp [h1], by simp; linarith, ?_⟩
    simp only [reduceCtorEq, false_iff, not_and, not_le]
    intro h3
    linarith
  · refine ⟨by simp; linarith, by simp [h2], ?_⟩
    simp only [reduceCtorEq, false_iff, not_and, not_le]
    intro h3
    linarith
  · refine ⟨by simp; linarith, by simp; linarith, ?_⟩
    simp only [true_iff]
    constructor <;> linarith [not_lt.mp h1, not_lt.mp h2]

/-- Dissection of a Revenue Growth member of `computeRatios`: it can only
come from the Revenue Growth block, which requires a previous period with
positive revenue. -/
theorem computeRatios_rg_mem {current : ProfitAndLoss} {previous : Option ProfitAndLoss}
    {cp : Option CashPosition} {r : RatioResult} (hr : r ∈ computeRatios current previous cp)
    (hname : r.name = "Revenue Growth") :
    ∃ p, previous = some p ∧ 0 < p.totalRevenue ∧ r = rgRatioOf current p := by
  cases previous with
  | none =>
    exfalso
    simp only [computeRatios, List.cons_append, List.nil_append, List.append_nil,
      List.mem_cons, List.mem_append] at hr
    rcases hr with rfl | rfl | rfl | hr
    · exact absurd hname (by simp)
    · exact absurd hname (by simp)
    · exact absurd hname (by simp)
    · split at hr
      · split at hr
        · rw [List.mem_singleton] at hr
          subst hr
          exact absurd hname (by simp)
        · simp at hr
      · simp at hr
  | some p =>
    simp only [computeRatios, List.cons_append, List.nil_append, List.mem_cons,
      List.mem_append] at hr
    rcases hr with rfl | rfl | rfl | hr
    · exact absurd hname (by simp)
    · exact absurd hname (by simp)
    · exact absurd hname (by simp)
    · rcases hr with hr | hr
      · split at hr
        · rename_i hrev
          rw [List.mem_singleton] at hr
          exact ⟨p, rfl, hrev, hr⟩
        · simp at hr
      · split at hr
        · split at hr
          · rw [List.mem_singleton] at hr
            subst hr
            exact absurd hname (by simp)
          · simp at hr
        · simp at hr

unseal Rat.sub Rat.add Rat.mul Rat.inv in
/-- Claim C5 (amended from "emitted exactly when a previous period with
nonzero totalRevenue is supplied" — the code requires a positive previous
revenue): `computeRatios` emits a Revenue Growth ratio exactly when a
previous period with positive `totalRevenue` is supplied; when emitted, its
trend is `improving` iff growth > 2, `declining` iff growth < −2, and
`stable` otherwise. -/
theorem claim_C5 : ∀ (current : ProfitAndLoss) (previous : Option ProfitAndLoss)
    (cp : Option CashPosition),
    ((∃ r ∈ computeRatios current previous cp, r.name = "Revenue Growth") ↔
      ∃ p, previous = some p ∧ 0 < p.totalRevenue) ∧
    (∀ p, previous = some p →
      ∀ r ∈ computeRatios current previous cp, r.name = "Revenue Growth" →
        (r.trend = .improving ↔ 2 < revenueGrowthOf current p) ∧
        (r.trend = .declining ↔ revenueGrowthOf current p < -2) ∧
        (r.trend = .stable ↔
          -2 ≤ revenueGrowthOf current p ∧ revenueGrowthOf current p ≤ 2)) := by
  intro current previous cp
  constructor
  · constructor
    · rintro ⟨r, hr, hname⟩
      obtain ⟨p, hp, hrev, -⟩ := computeRatios_rg_mem hr hname
      exact ⟨p, hp, hrev⟩
    · rintro ⟨p, rfl, hrev⟩
      refine ⟨rgRatioOf current p, ?_, rfl⟩
      simp only [computeRatios, List.mem_append]
      refine Or.inl (Or.inr ?_)
      rw [if_pos hrev]
      exact List.mem_singleton.mpr rfl
  · rintro p rfl r hr hname
    obtain ⟨p2, hp2, -, hreq⟩ := computeRatios_rg_mem hr hname
    obtain rfl : p2 = p := (Option.some.inj hp2).symm
    subst hreq
    exact trend_ite_spec _

unseal Rat.sub Rat.add Rat.mul Rat.inv in
/-- Claim C5 as stated is false: a supplied previous period with nonzero
(negative) totalRevenue produces no Revenue Growth ratio. -/
theorem claim_C5_counterexample :
    c5previous.totalRevenue ≠ 0 ∧
    (computeRatios c5current (some c5previous) none).all
      (fun r => !(r.name == "Revenue Growth")) = true := by
  constructor
  · decide
  · decide

unseal Rat.sub Rat.add Rat.mul Rat.inv in
theorem claim_C5_witness :
    (c5wRatio.trend = .improving ↔ 2 < revenueGrowthOf c5wCurrent c5wPrevious) ∧
    (c5wRatio.trend = .declining ↔ revenueGrowthOf c5wCurrent c5wPrevious < -2) ∧
    (c5wRatio.trend = .stable ↔
      -2 ≤ revenueGrowthOf c5wCurrent c5wPrevious ∧
        revenueGrowthOf c5wCurrent c5wPrevious ≤ 2) :=
  (claim_C5 c5wCurrent (some c5wPrevious) none).2 c5wPrevious rfl c5wRatio (by decide) (by decide)

/-- Claim C10: when a previous period is supplied but its computed ratio
value is exactly 0, the emitted RatioResult omits `previousValue` (JS
falsiness of 0), and for the Expense Ratio the trend is then `stable`
regardless of the current value. The three always-emitted ratios sit at
indices 0 (Gross Margin), 1 (Profit Margin) and 2 (Expense Ratio). -/
theorem claim_C10 : ∀ (current p : ProfitAndLoss) (cp : Option CashPosition),
    0 < p.totalRevenue →
    (p.grossProfit = 0 → ∀ r, (computeRatios current (some p) cp)[0]? = some r →
      r.previousValue = none) ∧
    (p.netIncome = 0 → ∀ r, (computeRatios current (some p) cp)[1]? = some r →
      r.previousValue = none) ∧
    (p.totalExpenses = 0 → ∀ r, (computeRatios current (some p) cp)[2]? = some r →
      r.previousValue = none ∧ r.trend = .stable) := by
  intro current p cp h
  refine ⟨fun hz r hr => ?_, fun hz r hr => ?_, fun hz r hr => ?_⟩ <;>
    simp only [computeRatios, List.cons_append, List.nil_append, List.getElem?_cons_zero,
      List.getElem?_cons_succ, Option.some.injEq] at hr <;>
    subst hr <;>
    simp [qTruthy, if_pos h, hz, zero_div]

unseal Rat.sub Rat.add Rat.mul Rat.inv in
theorem claim_C10_witness :
    (basePL.grossProfit = 0 → ∀ r, (computeRatios basePL (some c10previous) none)[0]? = some r →
      r.previousValue = none) ∧
    ((computeRatios basePL (some c10previous) none)[2]? = some c10expenseRatio →
      c10expenseRatio.previousValue = none ∧ c10expenseRatio.trend = .stable) :=
  ⟨fun hz r hr => ((claim_C10 basePL c10previous none (by decide)).1 hz r hr),
   fun hr => (claim_C10 basePL c10previous none (by decide)).2.2 (by decide) c10expenseRatio hr⟩

theorem string_append_ne (p s t : String) (h : t.data.take p.data.length ≠ p.data) :
    p ++ s ≠ t := by
  intro he
  subst he
  exact h (by rw [String.data_append, List.take_left])

theorem pairwise_of_length_le_one {α : Type} {R : α → α → Prop} {l : List α}
    (h : l.length ≤ 1) : List.Pairwise R l := by
  match l with
  | [] => exact List.Pairwise.nil
  | [x] => exact List.pairwise_singleton R x
  | x :: y :: rest => simp at h

theorem mem_cashIssues {ratios : List RatioResult} {nowISO : String} {pr : Issue × String}
    (h : pr ∈ cashIssues ratios nowISO) :
    pr.2 = "cash" ∧ pr.1.id = "iss-cash-runway" := by
  unfold cashIssues at h
  split at h
  · split at h
    · rw [List.mem_singleton] at h
      subst h
      exact ⟨rfl, rfl⟩
    · simp at h
  · simp at h

theorem cashIssues_length_le (ratios : List RatioResult) (nowISO : String) :
    (cashIssues ratios nowISO).length ≤ 1 := by
  unfold cashIssues
  split
  · split <;> simp
  · simp

theorem mem_expenseIssues {variances : List VarianceResult} {rootCauses : List String}
    {nowISO : String} {pr : Issue × String} (h : pr ∈ expenseIssues variances rootCauses nowISO) :
    pr.2 = "expense_revenue" ∧ pr.1.id = "iss-expense-revenue" := by
  unfold expenseIssues at h
  split at h
  · split at h
    · rw [List.mem_singleton] at h
      subst h
      exact ⟨rfl, rfl⟩
    · simp at h
  · simp at h

theorem expenseIssues_length_le (variances : List VarianceResult) (rootCauses : List String)
    (nowISO : String) : (expenseIssues variances rootCauses nowISO).length ≤ 1 := by
  unfold expenseIssues
  split
  · split <;> simp
  · simp

theorem mem_marginIssues {trends : List TrendResult} {rootCauses : List String}
    {nowISO : String} {pr : Issue × String} (h : pr ∈ marginIssues trends rootCauses nowISO) :
    pr.2 = "margin" ∧ pr.1.id = "iss-margin-decline" := by
  unfold marginIssues at h
  split at h
  · split at h
    · rw [List.mem_singleton] at h
      subst h
      exact ⟨rfl, rfl⟩
    · simp at h
  · simp at h

theorem marginIssues_length_le (trends : List TrendResult) (rootCauses : List String)
    (nowISO : String) : (marginIssues trends rootCauses nowISO).length ≤ 1 := by
  unfold marginIssues
  split
  · split <;> simp
  · simp

theorem marginIssues_eq {trends : List TrendResult} {rootCauses : List String}
    {nowISO : String} {mt : TrendResult}
    (hfind : trends.find?
      (fun t => t.metric == "Gross Profit" && decide (t.direction = .decreasing)) = some mt)
    (hp : 2 ≤ mt.periods) (hrc : "margin" ∉ rootCauses) :
    marginIssues trends rootCauses nowISO = [(marginIssueOf mt nowISO, "margin")] := by
  unfold marginIssues
  rw [hfind]
  exact if_pos ⟨hp, hrc⟩

theorem mem_anomalyIssues {as : List AnomalyResult} {rc : List String} {nowISO : String}
    {pr : Issue × String} (h : pr ∈ anomalyIssues as rc nowISO) :
    ∃ a : AnomalyResult, pr.1.id = "iss-anomaly-" ++ slugify a.metric ∧
      pr.2 = "anomaly-" ++ a.metric ∧ pr.1 = anomalyIssueOf a nowISO := by
  induction as generalizing rc with
  | nil => simp [anomalyIssues] at h
  | cons a rest ih =>
    simp only [anomalyIssues] at h
    split at h
    · exact ih h
    · rcases List.mem_cons.mp h with rfl | h2
      · exact ⟨a, rfl, rfl, rfl⟩
      · exact ih h2

theorem anomalyIssues_tags (as : List AnomalyResult) (rc : List String) (nowISO : String) :
    List.Pairwise (fun p q : Issue × String => p.2 ≠ q.2) (anomalyIssues as rc nowISO) ∧
    ∀ pr ∈ anomalyIssues as rc nowISO, pr.2 ∉ rc := by
  induction as generalizing rc with
  | nil => simp [anomalyIssues]
  | cons a rest ih =>
    simp only [anomalyIssues]
    split
    · exact ih rc
    · rename_i hmem
      constructor
      · refine List.pairwise_cons.mpr ⟨?_, (ih _).1⟩
        intro q hq heq
        exact (ih _).2 q hq (heq ▸ List.mem_cons_self _ _)
      · intro pr hpr
        rcases List.mem_cons.mp hpr with rfl | h2
        · exact hmem
        · intro hin
          exact (ih _).2 pr h2 (List.mem_cons_of_mem _ hin)

theorem anomalyIssues_length_le (as : List AnomalyResult) (rc : List String) (nowISO : String) :
    (anomalyIssues as rc nowISO).length ≤ as.length := by
  induction as generalizing rc with
  | nil => simp [anomalyIssues]
  | cons a rest ih =>
    simp only [anomalyIssues]
    split
    · exact le_trans (ih rc) (Nat.le_succ _)
    · simpa using ih _

theorem generateIssuesTagged_length_le (variances : List VarianceResult)
    (ratios : List RatioResult) (trends : List TrendResult) (anomalies : List AnomalyResult)
    (nowISO : String) : (generateIssuesTagged variances ratios trends anomalies nowISO).length ≤ 5 := by
  unfold generateIssuesTagged
  simp only [List.length_append]
  have h1 := cashIssues_length_le ratios nowISO
  have h2 := expenseIssues_length_le variances ((cashIssues ratios nowISO).map Prod.snd) nowISO
  have h3 := marginIssues_length_le trends
    (((cashIssues ratios nowISO) ++
      expenseIssues variances ((cashIssues ratios nowISO).map Prod.snd) nowISO).map Prod.snd) nowISO
  have h4 : ∀ rc, (anomalyIssues (anomalies.take 2) rc nowISO).length ≤ 2 := fun rc =>
    le_trans (anomalyIssues_length_le _ _ _)
      (by rw [List.length_take]; exact min_le_left _ _)
  exact le_trans (add_le_add (add_le_add (add_le_add h1 h2) h3) (h4 _)) (by norm_num)

theorem mem_generateIssuesTagged {variances : List VarianceResult} {ratios : List RatioResult}
    {trends : List TrendResult} {anomalies : List AnomalyResult} {nowISO : String}
    {pr : Issue × String} (h : pr ∈ generateIssuesTagged variances ratios trends anomalies nowISO) :
    pr ∈ cashIssues ratios nowISO ∨
    (∃ rc, pr ∈ expenseIssues variances rc nowISO) ∨
    (∃ rc, pr ∈ marginIssues trends rc nowISO) ∨
    (∃ rc, pr ∈ anomalyIssues (anomalies.take 2) rc nowISO) := by
  unfold generateIssuesTagged at h
  simp only [List.mem_append] at h
  rcases h with ((h | h) | h) | h
  · exact Or.inl h
  · exact Or.inr (Or.inl ⟨_, h⟩)
  · exact Or.inr (Or.inr (Or.inl ⟨_, h⟩))
  · exact Or.inr (Or.inr (Or.inr ⟨_, h⟩))

theorem generateIssuesTagged_tags_nodup (variances : List VarianceResult)
    (ratios : List RatioResult) (trends : List TrendResult) (anomalies : List AnomalyResult)
    (nowISO : String) :
    List.Pairwise (fun p q : Issue × String => p.2 ≠ q.2)
      (generateIssuesTagged variances ratios trends anomalies nowISO) := by
  unfold generateIssuesTagged
  rw [List.pairwise_append]
  refine ⟨?_, (anomalyIssues_tags _ _ _).1, ?_⟩
  · rw [List.pairwise_append]
    refine ⟨?_, ?_, ?_⟩
    · rw [List.pairwise_append]
      refine ⟨pairwise_of_length_le_one (cashIssues_length_le _ _),
        pairwise_of_length_le_one (expenseIssues_length_le _ _ _), ?_⟩
      intro x hx y hy
      rw [(mem_cashIssues hx).1, (mem_expenseIssues hy).1]
      decide
    · exact pairwise_of_length_le_one (marginIssues_length_le _ _ _)
    · intro x hx y hy
      rw [(mem_marginIssues hy).1]
      rcases List.mem_append.mp hx with hx | hx
      · rw [(mem_cashIssues hx).1]
        decide
      · rw [(mem_expenseIssues hx).1]
        decide
  · intro x hx y hy heq
    exact (anomalyIssues_tags _ _ _).2 y hy
      (heq ▸ List.mem_map.mpr ⟨x, hx, rfl⟩)

theorem issueLe_trans (a b c : Issue) (hab : issueLe a b = true) (hbc : issueLe b c = true) :
    issueLe a c = true := by
  simp only [issueLe, Bool.or_eq_true, Bool.and_eq_true, decide_eq_true_eq] at *
  rcases hab with h | ⟨h1, h2⟩ <;> rcases hbc with h3 | ⟨h3, h4⟩
  · exact Or.inl (lt_trans h h3)
  · exact Or.inl (h3 ▸ h)
  · exact Or.inl (h1 ▸ h3)
  · exact Or.inr ⟨h1.trans h3, le_trans h4 h2⟩

theorem issueLe_total (a b : Issue) : (issueLe a b || issueLe b a) = true := by
  simp only [issueLe, Bool.or_eq_true, Bool.and_eq_true, decide_eq_true_eq]
  rcases lt_trichotomy (severityRank a.severity) (severityRank b.severity) with h | h | h
  · exact Or.inl (Or.inl h)
  · rcases le_total b.currentValue a.currentValue with h2 | h2
    · exact Or.inl (Or.inr ⟨h, h2⟩)
    · exact Or.inr (Or.inr ⟨h.symm, h2⟩)
  · exact Or.inr (Or.inl h)

theorem issueLe_spec {a b : Issue} (h : issueLe a b = true) :
    severityRank a.severity < severityRank b.severity ∨
      (severityRank a.severity = severityRank b.severity ∧ b.currentValue ≤ a.currentValue) := by
  simpa only [issueLe, Bool.or_eq_true, Bool.and_eq_true, decide_eq_true_eq] using h

/-- Claim C2: `generateIssues` returns at most 5 issues, no two of its
candidate issues share a root-cause tag (stated on the tagged pipeline
`generateIssuesSorted`, of which `generateIssues` is the first projection),
and the result is sorted by severity (critical, warning, info) with ties
ordered by descending `currentValue`. -/
theorem claim_C2 : ∀ (variances : List VarianceResult) (ratios : List RatioResult)
    (trends : List TrendResult) (anomalies : List AnomalyResult)
    (cashPosition : Option CashPosition) (nowISO : String),
    (generateIssues variances ratios trends anomalies cashPosition nowISO).length ≤ 5 ∧
    List.Pairwise (fun p q : Issue × String => p.2 ≠ q.2)
      (generateIssuesSorted variances ratios trends anomalies cashPosition nowISO) ∧
    List.Pairwise (fun x y : Issue =>
      severityRank x.severity < severityRank y.severity ∨
        (severityRank x.severity = severityRank y.severity ∧ y.currentValue ≤ x.currentValue))
      (generateIssues variances ratios trends anomalies cashPosition nowISO) := by
  intro v r t a cp n
  refine ⟨?_, ?_, ?_⟩
  · simp only [generateIssues, generateIssuesSorted, List.length_map, List.length_take]
    exact min_le_left _ _
  · simp only [generateIssuesSorted]
    refine List.Pairwise.sublist (List.take_sublist _ _) ?_
    exact ((List.mergeSort_perm _ _).pairwise_iff fun h => h.symm).mpr
      (generateIssuesTagged_tags_nodup v r t a n)
  · simp only [generateIssues, generateIssuesSorted]
    rw [List.pairwise_map]
    refine List.Pairwise.sublist (List.take_sublist _ _) ?_
    refine List.Pairwise.imp (fun h => issueLe_spec h) ?_
    exact List.sorted_mergeSort
      (fun x y z hxy hyz => issueLe_trans x.1 y.1 z.1 hxy hyz)
      (fun x y => issueLe_total x.1 y.1) _

theorem mem_generateIssues {variances : List VarianceResult} {ratios : List RatioResult}
    {trends : List TrendResult} {anomalies : List AnomalyResult} {cp : Option CashPosition}
    {nowISO : String} {i : Issue} (h : i ∈ generateIssues variances ratios trends anomalies cp nowISO) :
    ∃ tag, (i, tag) ∈ generateIssuesTagged variances ratios trends anomalies nowISO := by
  simp only [generateIssues, generateIssuesSorted, List.mem_map] at h
  obtain ⟨pr, hpr, rfl⟩ := h
  have h2 := List.mem_of_mem_take hpr
  rw [List.mem_mergeSort] at h2
  exact ⟨pr.2, h2⟩

theorem detectTrends_mem_facts {ps : List ProfitAndLoss} {t : TrendResult}
    (h : t ∈ detectTrends ps) : t.periods = ps.length ∧ 2 ≤ ps.length := by
  simp only [detectTrends] at h
  split at h
  · simp at h
  · rename_i hlen
    rw [List.mem_filterMap] at h
    obtain ⟨m, -, hm⟩ := h
    refine ⟨?_, by omega⟩
    split at hm
    · simp at hm
    · have hinj := Option.some.inj hm
      rw [← hinj]

theorem mem_marginIssues_eq {trends : List TrendResult} {rc : List String} {nowISO : String}
    {pr : Issue × String} (h : pr ∈ marginIssues trends rc nowISO) :
    ∃ mt, trends.find?
        (fun t => t.metric == "Gross Profit" && decide (t.direction = .decreasing)) = some mt ∧
      pr.1 = marginIssueOf mt nowISO := by
  unfold marginIssues at h
  split at h
  · rename_i mt hfind
    split at h
    · rw [List.mem_singleton] at h
      subst h
      exact ⟨mt, hfind, rfl⟩
    · simp at h
  · simp at h

unseal Rat.sub Rat.add Rat.mul Rat.inv List.mergeSort collapseWs String.mapAux in
/-- Claim C4: Scenario 2 — cash balance 15,000, expenses 20,000, revenue
15,000 gives monthly burn 5,000, runway exactly 3.0: the Cash Runway ratio
has value 3 and trend `stable` (3 is outside the strict `<3` declining
band), and `generateIssues` raises no cash-runway issue for these ratios no
matter what variances, trends and anomalies it is given (the critical
threshold is strictly `runway < 3`). -/
theorem claim_C4 :
    ((computeRatios sc2current none (some sc2cash)).filter (fun r => r.name == "Cash Runway") =
      [{ name := "Cash Runway", value := 3, previousValue := none, trend := .stable,
         description := "Months your cash will last at current spending" }]) ∧
    ∀ (variances : List VarianceResult) (trends : List TrendResult)
      (anomalies : List AnomalyResult) (nowISO : String),
      ∀ i ∈ generateIssues variances (computeRatios sc2current none (some sc2cash)) trends
          anomalies (some sc2cash) nowISO, i.id ≠ "iss-cash-runway" := by
  refine ⟨by decide, ?_⟩
  intro v t a n i hi
  obtain ⟨tag, htag⟩ := mem_generateIssues hi
  rcases mem_generateIssuesTagged htag with h | ⟨rc, h⟩ | ⟨rc, h⟩ | ⟨rc, h⟩
  · rw [show cashIssues (computeRatios sc2current none (some sc2cash)) n = [] from rfl] at h
    simp at h
  · have h2 : i.id = "iss-expense-revenue" := (mem_expenseIssues h).2
    rw [h2]
    decide
  · have h2 : i.id = "iss-margin-decline" := (mem_marginIssues h).2
    rw [h2]
    decide
  · obtain ⟨an, hid, -, -⟩ := mem_anomalyIssues h
    have h2 : i.id = "iss-anomaly-" ++ slugify an.metric := hid
    rw [h2]
    exact string_append_ne _ _ _ (by decide)

unseal Rat.sub Rat.add Rat.mul Rat.inv List.mergeSort collapseWs String.mapAux in
theorem claim_C4_witness : (c8issue "").id ≠ "iss-cash-runway" :=
  claim_C4.2 [] [] [c8anomaly] "" (c8issue "") (by decide)

unseal Rat.sub Rat.add Rat.mul Rat.inv List.mergeSort in
/-- Claim C6: whenever `detectTrends` reports a decreasing Gross Profit
trend (necessarily sustained ≥2 periods), `generateIssues` emits exactly
one margin-decline issue, with severity `warning` iff the trend spans ≥3
periods and `info` otherwise; Scenario 3 (five months of gross profit
falling by a >3% relative step each month) yields a decreasing trend with
`periods = 5` and a `warning` margin-decline issue. -/
theorem claim_C6 :
    (∀ (ps : List ProfitAndLoss) (variances : List VarianceResult) (ratios : List RatioResult)
      (anomalies : List AnomalyResult) (cp : Option CashPosition) (nowISO : String)
      (t : TrendResult), t ∈ detectTrends ps → t.metric = "Gross Profit" →
      t.direction = .decreasing →
      2 ≤ t.periods ∧
      (generateIssues variances ratios (detectTrends ps) anomalies cp nowISO).countP
        (fun i => i.id == "iss-margin-decline") = 1 ∧
      (∀ i ∈ generateIssues variances ratios (detectTrends ps) anomalies cp nowISO,
        i.id = "iss-margin-decline" →
          i.severity = (if 3 ≤ t.periods then .warning else .info))) ∧
    sc3trend ∈ detectTrends sc3periods ∧ sc3trend.direction = .decreasing ∧
    sc3trend.periods = 5 ∧
    (generateIssues [] [] (detectTrends sc3periods) [] none "").countP
      (fun i => i.id == "iss-margin-decline" && decide (i.severity = .warning)) = 1 := by
  refine ⟨?_, by decide, rfl, rfl, by decide⟩
  intro ps v r a cp n t ht hmetric hdir
  obtain ⟨hperT, hlen2⟩ := detectTrends_mem_facts ht
  -- the find? in the margin rule succeeds
  have hsome : (List.find?
      (fun t => t.metric == "Gross Profit" && decide (t.direction = .decreasing))
      (detectTrends ps)).isSome := by
    rw [List.find?_isSome]
    exact ⟨t, ht, by simp [hmetric, hdir]⟩
  obtain ⟨mt, hfind⟩ := Option.isSome_iff_exists.mp hsome
  obtain ⟨hperM, -⟩ := detectTrends_mem_facts (List.mem_of_find?_eq_some hfind)
  have hperEq : mt.periods = t.periods := by rw [hperM, hperT]
  have hmt2 : 2 ≤ mt.periods := by omega
  -- the rootCauses set before the margin rule holds no "margin" tag
  have hnotin : "margin" ∉
      ((cashIssues r n ++
        expenseIssues v ((cashIssues r n).map Prod.snd) n).map Prod.snd) := by
    intro hmem2
    rw [List.mem_map] at hmem2
    obtain ⟨pr, hpr, heq⟩ := hmem2
    rcases List.mem_append.mp hpr with hh | hh
    · rw [(mem_cashIssues hh).1] at heq
      exact absurd heq (by decide)
    · rw [(mem_expenseIssues hh).1] at heq
      exact absurd heq (by decide)
  have hmargin := @marginIssues_eq (detectTrends ps)
    ((cashIssues r n ++ expenseIssues v ((cashIssues r n).map Prod.snd) n).map Prod.snd)
    n mt hfind hmt2 hnotin
  refine ⟨by omega, ?_, ?_⟩
  · -- exactly one margin-decline issue
    have hle5 := generateIssuesTagged_length_le v r (detectTrends ps) a n
    simp only [generateIssues, generateIssuesSorted]
    rw [List.take_of_length_le (by rw [List.length_mergeSort]; exact hle5)]
    rw [List.countP_map]
    rw [(List.mergeSort_perm _ _).countP_eq]
    unfold generateIssuesTagged
    rw [List.countP_append, List.countP_append, List.countP_append]
    have hc1 : (cashIssues r n).countP
        ((fun i => i.id == "iss-margin-decline") ∘ Prod.fst) = 0 := by
      rw [List.countP_eq_zero]
      intro pr hpr
      simp only [Function.comp_apply, beq_iff_eq]
      rw [(mem_cashIssues hpr).2]
      decide
    have hc2 : (expenseIssues v ((cashIssues r n).map Prod.snd) n).countP
        ((fun i => i.id == "iss-margin-decline") ∘ Prod.fst) = 0 := by
      rw [List.countP_eq_zero]
      intro pr hpr
      simp only [Function.comp_apply, beq_iff_eq]
      rw [(mem_expenseIssues hpr).2]
      decide
    have hc3 : (marginIssues (detectTrends ps)
        ((cashIssues r n ++ expenseIssues v ((cashIssues r n).map Prod.snd) n).map Prod.snd)
        n).countP ((fun i => i.id == "iss-margin-decline") ∘ Prod.fst) = 1 := by
      rw [hmargin]
      simp [marginIssueOf]
    have hc4 : (anomalyIssues (a.take 2)
        ((cashIssues r n ++ expenseIssues v ((cashIssues r n).map Prod.snd) n ++
          marginIssues (detectTrends ps)
            ((cashIssues r n ++ expenseIssues v ((cashIssues r n).map Prod.snd) n).map Prod.snd)
            n).map Prod.snd) n).countP
        ((fun i => i.id == "iss-margin-decline") ∘ Prod.fst) = 0 := by
      rw [List.countP_eq_zero]
      intro pr hpr
      obtain ⟨an, hid, -, -⟩ := mem_anomalyIssues hpr
      simp only [Function.comp_apply, beq_iff_eq]
      rw [hid]
      exact string_append_ne _ _ _ (by decide)
    rw [hc1, hc2, hc3, hc4]
  · -- the margin-decline issue carries the expected severity
    intro i hi hid
    obtain ⟨tag, htag⟩ := mem_generateIssues hi
    rcases mem_generateIssuesTagged htag with h | ⟨rc, h⟩ | ⟨rc, h⟩ | ⟨rc, h⟩
    · have h2 : i.id = "iss-cash-runway" := (mem_cashIssues h).2
      rw [hid] at h2
      exact absurd h2 (by decide)
    · have h2 : i.id = "iss-expense-revenue" := (mem_expenseIssues h).2
      rw [hid] at h2
      exact absurd h2 (by decide)
    · obtain ⟨mt2, hfind2, heq2⟩ := mem_marginIssues_eq h
      have : mt2 = mt := by
        rw [hfind] at hfind2
        exact (Option.some.inj hfind2).symm
      subst this
      have h3 : i = marginIssueOf mt2 n := heq2
      rw [h3]
      simp only [marginIssueOf]
      rw [hperEq]
    · obtain ⟨an, hid2, -, -⟩ := mem_anomalyIssues h
      have h2 : i.id = "iss-anomaly-" ++ slugify an.metric := hid2
      rw [hid] at h2
      exact absurd h2.symm (string_append_ne _ _ _ (by decide))

unseal Rat.sub Rat.add Rat.mul Rat.inv List.mergeSort in
theorem claim_C6_witness :
    2 ≤ sc3trend.periods ∧
    (generateIssues [] [] (detectTrends sc3periods) [] none "").countP
      (fun i => i.id == "iss-margin-decline") = 1 ∧
    (∀ i ∈ generateIssues [] [] (detectTrends sc3periods) [] none "",
      i.id = "iss-margin-decline" →
        i.severity = (if 3 ≤ sc3trend.periods then .warning else .info)) :=
  claim_C6.1 sc3periods [] [] [] none "" sc3trend (by decide) rfl rfl

unseal Rat.sub Rat.add Rat.mul Rat.inv Substring.takeWhileAux Substring.takeRightWhileAux in
/-- Claim C1: `generateInsightsFromMetrics` never aborts the batch when a
text-generation call throws: the emitted insights — erased of their
`action` fields — are identical for every oracle of call outcomes (so every
category emitted on success is still emitted, and the model is total: the
throw is caught inside `callAI`), and in Scenario 5 (one significant
variance whose call succeeds, one trend whose call throws) both insights
are returned, the trend insight merely lacking its `action`. -/
theorem claim_C1 :
    (∀ (ai1 ai2 : ℕ → String → Except Unit String) (now : ℕ) (nowISO : String)
      (data : MetricsData),
      (generateInsightsFromMetrics ai1 now nowISO data).map eraseAction =
        (generateInsightsFromMetrics ai2 now nowISO data).map eraseAction) ∧
    (generateInsightsFromMetrics sc5oracle 7 "t0" sc5data).map (fun i => (i.type, i.action)) =
      [(.variance, some "Keep an eye on costs."), (.trend, none)] := by
  refine ⟨?_, by decide⟩
  intro ai1 ai2 now nowISO data
  simp only [generateInsightsFromMetrics, List.map_append, List.map_map]
  by_cases hv : 0 < (data.variances.filter
      (fun v => !(decide (v.significance = .low)) && !(v.metric == "Cost of Goods Sold"))).length
  · simp only [if_pos hv]
    congr 1
  · simp only [if_neg hv]
    congr 1

theorem foldl_pnlStep_grossProfit {rows : List QBRow} {s : PnLState}
    (h : ∀ row ∈ rows, strOr row.group "" ≠ "GrossProfit") :
    (rows.foldl pnlStep s).grossProfit = s.grossProfit := by
  induction rows generalizing s with
  | nil => rfl
  | cons row rest ih =>
    rw [List.foldl_cons, ih (fun q hq => h q (List.mem_cons_of_mem _ hq))]
    have hrow := h row (List.mem_cons_self _ _)
    simp only [pnlStep]
    split_ifs <;> rfl

theorem foldl_pnlMonthStep_grossProfit (dataIdx : ℕ) {rows : List QBRow} {s : PnLState}
    (h : ∀ row ∈ rows, strOr row.group "" ≠ "GrossProfit") :
    (rows.foldl (pnlMonthStep dataIdx) s).grossProfit = s.grossProfit := by
  induction rows generalizing s with
  | nil => rfl
  | cons row rest ih =>
    rw [List.foldl_cons, ih (fun q hq => h q (List.mem_cons_of_mem _ hq))]
    have hrow := h row (List.mem_cons_self _ _)
    simp only [pnlMonthStep]
    split_ifs <;> rfl

/-- Claim C9 (amended: the derivation `grossProfit = totalRevenue −
totalCogs` happens only when the parsed `totalRevenue` is positive; with an
unsupplied grossProfit and non-positive revenue the field stays 0): for
both `parseProfitAndLoss` and `parseMonthlyPnL`, if the report has no
GrossProfit row then the output's grossProfit is `totalRevenue − totalCogs`
when `totalRevenue > 0` and 0 otherwise; and `expenseCategories` is always
sorted descending by absolute amount. -/
theorem claim_C9 :
    (∀ report : QBReport, (∀ row ∈ report.rows.getD [], strOr row.group "" ≠ "GrossProfit") →
      (parseProfitAndLoss report).grossProfit =
        (if 0 < (parseProfitAndLoss report).totalRevenue
         then (parseProfitAndLoss report).totalRevenue - (parseProfitAndLoss report).totalCogs
         else 0)) ∧
    (∀ report : QBReport, ∀ p ∈ parseMonthlyPnL report,
      (∀ row ∈ report.rows.getD [], strOr row.group "" ≠ "GrossProfit") →
      p.grossProfit = (if 0 < p.totalRevenue then p.totalRevenue - p.totalCogs else 0)) ∧
    (∀ report : QBReport,
      List.Pairwise (fun a b : ExpenseCategory => |b.amount| ≤ |a.amount|)
        (parseProfitAndLoss report).expenseCategories) ∧
    (∀ report : QBReport, ∀ p ∈ parseMonthlyPnL report,
      List.Pairwise (fun a b : ExpenseCategory => |b.amount| ≤ |a.amount|)
        p.expenseCategories) := by
  refine ⟨?_, ?_, ?_, ?_⟩
  · intro report h
    simp only [parseProfitAndLoss]
    have hgp0 : ((report.rows.getD []).foldl pnlStep {}).grossProfit = 0 :=
      (foldl_pnlStep_grossProfit h).trans rfl
    rw [hgp0]
    simp
  · intro report p hp h
    simp only [parseMonthlyPnL, List.mem_map] at hp
    obtain ⟨pr, -, rfl⟩ := hp
    have hgp0 : ((report.rows.getD []).foldl (pnlMonthStep (pr.1 + 1)) {}).grossProfit = 0 :=
      (foldl_pnlMonthStep_grossProfit _ h).trans rfl
    simp only []
    rw [hgp0]
    simp
  · intro report
    simp only [parseProfitAndLoss]
    refine List.Pairwise.imp (fun h => of_decide_eq_true h) ?_
    exact List.sorted_mergeSort
      (fun a b c hab hbc => by
        simp only [decide_eq_true_eq] at *
        exact le_trans hbc hab)
      (fun a b => by
        simp only [Bool.or_eq_true, decide_eq_true_eq]
        exact le_total _ _) _
  · intro report p hp
    simp only [parseMonthlyPnL, List.mem_map] at hp
    obtain ⟨pr, -, rfl⟩ := hp
    simp only []
    refine List.Pairwise.imp (fun h => of_decide_eq_true h) ?_
    exact List.sorted_mergeSort
      (fun a b c hab hbc => by
        simp only [decide_eq_true_eq] at *
        exact le_trans hbc hab)
      (fun a b => by
        simp only [Bool.or_eq_true, decide_eq_true_eq]
        exact le_total _ _) _

unseal Rat.sub Rat.add Rat.mul Rat.inv in
/-- Claim C9 as stated is false: with a COGS-only report (grossProfit not
supplied, totalRevenue 0, totalCogs 500) the parser leaves grossProfit at
0, not at totalRevenue − totalCogs = −500. -/
theorem claim_C9_counterexample :
    (c9report.rows.getD []).all (fun row => !(strOr row.group "" == "GrossProfit")) = true ∧
    (parseProfitAndLoss c9report).grossProfit ≠
      (parseProfitAndLoss c9report).totalRevenue - (parseProfitAndLoss c9report).totalCogs := by
  constructor
  · decide
  · decide

unseal Rat.sub Rat.add Rat.mul Rat.inv List.mergeSort in
theorem claim_C9_witness :
    ((parseProfitAndLoss c9wReport).grossProfit =
      (if 0 < (parseProfitAndLoss c9wReport).totalRevenue
       then (parseProfitAndLoss c9wReport).totalRevenue - (parseProfitAndLoss c9wReport).totalCogs
       else 0)) ∧
    (c9wMonthlyPeriod.grossProfit =
      (if 0 < c9wMonthlyPeriod.totalRevenue
       then c9wMonthlyPeriod.totalRevenue - c9wMonthlyPeriod.totalCogs else 0)) ∧
    List.Pairwise (fun a b : ExpenseCategory => |b.amount| ≤ |a.amount|)
      (parseProfitAndLoss c9report).expenseCategories ∧
    List.Pairwise (fun a b : ExpenseCategory => |b.amount| ≤ |a.amount|)
      c9wMonthlyPeriod.expenseCategories :=
  ⟨claim_C9.1 c9wReport (by decide),
   claim_C9.2.1 c9wMonthlyReport c9wMonthlyPeriod (by decide) (by decide),
   claim_C9.2.2.1 c9report,
   claim_C9.2.2.2 c9wMonthlyReport c9wMonthlyPeriod (by decide)⟩

unseal Rat.sub Rat.add Rat.mul Rat.inv in
theorem claim_C3_witness :
    (sc1variance.significance = .high ↔ 20 < |rawPercentChange sc1variance|) ∧
    (sc1variance.significance = .medium ↔
      10 < |rawPercentChange sc1variance| ∧ |rawPercentChange sc1variance| ≤ 20) ∧
    (sc1variance.significance = .low ↔ |rawPercentChange sc1variance| ≤ 10) :=
  claim_C3.1 sc1current sc1previous sc1variance (by decide)

end FinsightAI
